import Mathlib

set_option maxHeartbeats 2000000
set_option maxRecDepth 4000

/-!
Shallow embedding of the agent-installation command planner
(apps/backend/agent/tools.py of bk-nodeman), together with proofs about
its behaviour.  Machine integers in the source are plain Python ints, so
they are embedded as Nat; Python strings become String; fallible code
(exceptions) becomes Except; external collaborators (settings, the token
issuer, ORM lookups) are explicit fields of an Env record so that every
input of the computation is visible.
-/

/-- OS tags total universe, mirroring constants.OsType (uppercase values)
and apps.backend.api.constants.OS (lowercase values). -/
inductive OsType where
  | LINUX
  | WINDOWS
  | AIX
deriving DecidableEq

/-- Node roles, mirroring constants.NodeType. -/
inductive NodeType where
  | AGENT
  | PROXY
  | PAGENT
deriving DecidableEq

/-- Auth types, mirroring constants.AuthType. -/
inductive AuthType where
  | KEY
  | PASSWORD
deriving DecidableEq

/-- String value of a node type, as interpolated by f-strings in the source. -/
def NodeType.str : NodeType → String
  | NodeType.AGENT => "AGENT"
  | NodeType.PROXY => "PROXY"
  | NodeType.PAGENT => "PAGENT"

/-- Lower-case string of an OS tag, mirroring host.os_type.lower(). -/
def OsType.lowerStr : OsType → String
  | OsType.LINUX => "linux"
  | OsType.WINDOWS => "windows"
  | OsType.AIX => "aix"

/-- Modelled from the spec: apps.backend.api.constants.SUFFIX_MAP is not under
src/.  Per the spec (section 4.3), every OS has a script suffix and exactly one
platform (AIX) has a dedicated shell; the suffix values are the script-file
extensions of the OS-specific installer scripts. -/
def SUFFIX_MAP : OsType → String
  | OsType.LINUX => "sh"
  | OsType.WINDOWS => "bat"
  | OsType.AIX => "ksh"

/-- Modelled from the spec: constants.SCRIPT_FILE_NAME_MAP is not under src/.
It is the fixed OS-to-filename table for the OS-specific agent installer
script (spec sections 4.2 and 8: a Linux AGENT host gets setup_agent.sh). -/
def SCRIPT_FILE_NAME_MAP : OsType → String
  | OsType.LINUX => "setup_agent.sh"
  | OsType.WINDOWS => "setup_agent.bat"
  | OsType.AIX => "setup_agent.ksh"

/-- Modelled from the spec: constants.SetupScriptFileName.SETUP_PAGENT_PY is
the OS-agnostic deep/relay installer script name. -/
def SETUP_PAGENT_PY : String := "setup_pagent.py"

/-- Modelled from the spec: constants.SetupScriptFileName.GSECTL_BAT, the batch
file removed alongside the script on the desktop OS. -/
def GSECTL_BAT : String := "gsectl.bat"

/-- One entry of an access-point server pool, a pair of inner and outer IP. -/
structure ServerEntry where
  inner_ip : String
  outer_ip : String
deriving DecidableEq

/-- The port configuration of an access point (host_ap.port_config); the
source reads these with dict get, and they are always configured, so the
record is total. -/
structure PortConfig where
  io_port : Nat
  file_svr_port : Nat
  data_port : Nat
  btsvr_thrift_port : Nat
  bt_port : Nat
  bt_port_start : Nat
  bt_port_end : Nat
  tracker_port : Nat
deriving DecidableEq

/-- Per-OS agent configuration of an access point. -/
structure AgentConfig where
  setup_path : String
  temp_path : String
deriving DecidableEq

/-- Host authentication data (models.IdentityData snapshot). -/
structure IdentityData where
  bk_host_id : Nat
  auth_type : AuthType
  key : String
  password : String
  account : String
  port : Nat
deriving DecidableEq

/-- Read-only snapshot of a models.Host row.  The identity field is the
host.identity ORM property used as the batch fallback. -/
structure Host where
  bk_host_id : Nat
  bk_cloud_id : Nat
  ap_id : Nat
  inner_ip : String
  login_ip : String
  os_type : OsType
  node_type : NodeType
  install_channel_id : Option Nat
  is_manual : Bool
  identity : IdentityData
deriving DecidableEq

/-- Read-only snapshot of a models.AccessPoint row.  outer_callback_url uses
the empty string for the Django blank value (Python falsy), matching the
source which tests it with the or operator.  agent_config models the
get_agent_config(os_type) method. -/
structure AccessPoint where
  btfileserver : List ServerEntry
  dataserver : List ServerEntry
  taskserver : List ServerEntry
  package_inner_url : String
  package_outer_url : String
  outer_callback_url : String
  port_config : PortConfig
  agent_config : OsType → AgentConfig

/-- An install channel: the pair of jump host and upstream-server dict that
host.install_channel yields.  agent_download_proxy models
upstream_servers.get with default True, channel_proxy_address models
upstream_servers.get with default None. -/
structure InstallChannel where
  jump_server : Host
  btfileserver : List String
  dataserver : List String
  taskserver : List String
  agent_download_proxy : Bool
  channel_proxy_address : Option String

/-- The django settings values the source reads. -/
structure Settings where
  BK_NODEMAN_NGINX_DOWNLOAD_PORT : Nat
  BKAPP_NODEMAN_CALLBACK_URL : String
  BKAPP_NODEMAN_OUTER_CALLBACK_URL : String
  DOWNLOAD_PATH : String
  BK_NODEMAN_NGINX_PROXY_PASS_PORT : Nat

/-- Environment of external collaborators: settings, the token issuer
(aes_cipher.encrypt), the fixed timestamp rendered by time.time(), and the
ORM lookups used by gen_commands and batch_gen_commands.
choose_alive_proxy is modelled from the spec (section 4.1: one live proxy is
selected from the candidate list, none when no live proxy exists);
install_channel_of models the host.install_channel property keyed by
install_channel_id; ap_id_obj_map models models.AccessPoint.ap_id_obj_map();
bulk_identity_of models the bulk IdentityData query keyed by bk_host_id;
proxies_of_cloud models the host.proxies property keyed by bk_cloud_id. -/
structure Env where
  settings : Settings
  encrypt : String → String
  time_time : String
  choose_alive_proxy : List Host → Option Host
  install_channel_of : Option Nat → Option InstallChannel
  ap_id_obj_map : Nat → AccessPoint
  bulk_identity_of : Nat → Option IdentityData
  proxies_of_cloud : Nat → List Host

/-- The exceptions the planner can surface: GenCommandsError raised by
check_run_commands; AliveProxyNotExists for get_random_alive_proxy failing
(spec section 4.1 failure case); MissingInstallChannel / NoneJumpServer for
the crashes Python would raise when a required record is absent (spec
section 7, missing required record). -/
inductive GenError where
  | GenCommandsError (context : String)
  | AliveProxyNotExists
  | MissingInstallChannel
  | NoneJumpServer
deriving DecidableEq

/-- Python a or b on strings: empty string is falsy. -/
def pyOr (a b : String) : String := if a = "" then b else a

/-- Python truthiness of an optional string (None and the empty string are
falsy). -/
def pyTruthy : Option String → Bool
  | none => false
  | some s => !(s == "")

/-- Python list(set(xs)) on a list of strings.  Set iteration order is
unspecified in Python; we keep first occurrences.  All theorems about this
value are order-insensitive. -/
def pySetList (xs : List String) : List String := xs.eraseDups

/-- Python list(set(s)) where s is a STRING: iterating a string yields its
characters, so the result is the list of distinct one-character strings of s
(order unspecified in Python; we keep first occurrences). -/
def pyStrSetList (s : String) : List String :=
  (s.data.eraseDups).map (fun c => String.mk [c])

/-- gen_nginx_download_url of the source (line 68). -/
def gen_nginx_download_url (st : Settings) (nginx_ip : String) : String :=
  "http://" ++ nginx_ip ++ ":" ++ toString st.BK_NODEMAN_NGINX_DOWNLOAD_PORT ++ "/"

/-- Modelled from the spec: apps.utils.basic.suffix_slash is not under src/.
Per the spec (section 3 invariant), the destination directory always carries
the OS-correct trailing path separator: a backslash on Windows, a slash
elsewhere, appended only when absent. -/
def suffix_slash (os_type : OsType) (path : String) : String :=
  if os_type = OsType.WINDOWS then
    if path.endsWith "\\" then path else path ++ "\\"
  else
    if path.endsWith "/" then path else path ++ "/"

/-- Modelled from pathlib semantics on the POSIX host running the planner:
Path(a) equality disregards trailing slash separators, so Path(dest_dir)
equals Path of /tmp exactly when dest_dir minus trailing slashes is /tmp. -/
def dropTrailingSlashes (s : String) : String :=
  String.mk (((s.data.reverse).dropWhile (fun c => c == '/')).reverse)

/-- The Path(dest_dir) != Path of /tmp test of source line 303. -/
def path_ne_tmp (d : String) : Bool := !(dropTrailingSlashes d == "/tmp")

/-- str.startswith via character lists (same semantics as String.startsWith,
stated on List Char so proofs can compute with a symbolic tail). -/
def strStartsWith (s p : String) : Bool := p.data.isPrefixOf s.data

/-- str.endswith via character lists. -/
def strEndsWith (s p : String) : Bool := p.data.isSuffixOf s.data

/-- Drop the last n characters of a string. -/
def strDropRight (s : String) (n : Nat) : String :=
  String.mk (s.data.take (s.data.length - n))

/-- Drop the first n characters of a string. -/
def strDrop (s : String) (n : Nat) : String := String.mk (s.data.drop n)

/-- Python re.match against the anchored pattern of source line 325
(caret -r space https?://.+/backend dollar): the command must be -r, a space,
an http or https scheme, a non-empty newline-free middle, and end in
/backend; the dollar anchor also accepts one trailing newline. -/
def reMatchCallback (command : String) : Bool :=
  let core := fun (t : String) =>
    let rest :=
      if strStartsWith t "-r https://" then some (strDrop t 11)
      else if strStartsWith t "-r http://" then some (strDrop t 10)
      else none
    match rest with
    | none => false
    | some r =>
      strEndsWith r "/backend" && decide (8 < r.data.length) &&
        !((strDropRight r 8).data.contains '\n')
  core command || (strEndsWith command "\n" && core (strDropRight command 1))

/-- The translated context message of the GenCommandsError of line 326. -/
def CALLBACK_URL_ERR_CONTEXT : String :=
  "CALLBACK_URL不符合规范, 请联系运维人员修改。 例：http://domain.com/backend"

/-- check_run_commands of the source (lines 322-326): scan the parameter
list; for a parameter starting with -r, raise GenCommandsError unless the
callback pattern matches. -/
def check_run_commands : List String → Except GenError Unit
  | [] => Except.ok ()
  | command :: rest =>
    if strStartsWith command "-r" && !(reMatchCallback command) then
      Except.error (GenError.GenCommandsError CALLBACK_URL_ERR_CONTEXT)
    else check_run_commands rest

/-- The 7-tuple returned by fetch_gse_servers.  Slot 3 and slot 4 both carry
data_servers in the source (lines 92 and 118); the tuple shape is kept
verbatim. -/
abbrev GseTuple :=
  Option Host × String × String × String × String × String × String

/-- fetch_gse_servers of the source (lines 72-118).  The source raises out
of host.get_random_alive_proxy when a PAGENT host has no live proxy; that
and the unpacking crash when install_channel is absent despite a set
install_channel_id become Except errors. -/
def fetch_gse_servers (env : Env) (host : Host) (host_ap : AccessPoint)
    (proxies : List Host) (install_channel : Option InstallChannel) :
    Except GenError GseTuple :=
  if host.install_channel_id.isSome then
    match install_channel with
    | none => Except.error GenError.MissingInstallChannel
    | some ch =>
      let jump_server := ch.jump_server
      let bt_file_servers := String.intercalate "," ch.btfileserver
      let data_servers := String.intercalate "," ch.dataserver
      let task_servers := String.intercalate "," ch.taskserver
      let package_url := gen_nginx_download_url env.settings jump_server.inner_ip
      let default_callback_url :=
        if host.node_type = NodeType.AGENT then
          env.settings.BKAPP_NODEMAN_CALLBACK_URL
        else env.settings.BKAPP_NODEMAN_OUTER_CALLBACK_URL
      let callback_url := pyOr host_ap.outer_callback_url default_callback_url
      Except.ok (some jump_server, bt_file_servers, data_servers, data_servers,
        task_servers, package_url, callback_url)
  else if host.node_type = NodeType.AGENT then
    let bt_file_servers :=
      String.intercalate "," (host_ap.btfileserver.map ServerEntry.inner_ip)
    let data_servers :=
      String.intercalate "," (host_ap.dataserver.map ServerEntry.inner_ip)
    let task_servers :=
      String.intercalate "," (host_ap.taskserver.map ServerEntry.inner_ip)
    let package_url := host_ap.package_inner_url
    let callback_url := env.settings.BKAPP_NODEMAN_CALLBACK_URL
    Except.ok (none, bt_file_servers, data_servers, data_servers,
      task_servers, package_url, callback_url)
  else if host.node_type = NodeType.PROXY then
    let bt_file_servers :=
      String.intercalate "," (host_ap.btfileserver.map ServerEntry.outer_ip)
    let data_servers :=
      String.intercalate "," (host_ap.dataserver.map ServerEntry.outer_ip)
    let task_servers :=
      String.intercalate "," (host_ap.taskserver.map ServerEntry.outer_ip)
    let package_url := host_ap.package_outer_url
    let callback_url :=
      pyOr host_ap.outer_callback_url env.settings.BKAPP_NODEMAN_OUTER_CALLBACK_URL
    Except.ok (none, bt_file_servers, data_servers, data_servers,
      task_servers, package_url, callback_url)
  else
    let proxy_ips := pySetList (proxies.map Host.inner_ip)
    match env.choose_alive_proxy proxies with
    | none => Except.error GenError.AliveProxyNotExists
    | some jump_server =>
      let bt_file_servers := String.intercalate "," proxy_ips
      let data_servers := String.intercalate "," proxy_ips
      let task_servers := String.intercalate "," proxy_ips
      let package_url := host_ap.package_outer_url
      let callback_url :=
        pyOr host_ap.outer_callback_url env.settings.BKAPP_NODEMAN_OUTER_CALLBACK_URL
      Except.ok (some jump_server, bt_file_servers, data_servers, data_servers,
        task_servers, package_url, callback_url)

/-- choose_script_file of the source (lines 121-133). -/
def choose_script_file (host : Host) : String :=
  if host.node_type = NodeType.PROXY then "setup_proxy.sh"
  else if host.install_channel_id.isSome ∨ host.node_type = NodeType.PAGENT then
    SETUP_PAGENT_PY
  else SCRIPT_FILE_NAME_MAP host.os_type

/-- format_run_command_by_os_type of the source (lines 136-146).  The source
lowercases its string argument before comparing; the OsType embedding makes
that normalization implicit.  run_command defaults to None. -/
def format_run_command_by_os_type (os_type : OsType)
    (run_command : Option String := none) : String :=
  if os_type = OsType.WINDOWS ∧ pyTruthy run_command then run_command.getD ""
  else
    let suffix := SUFFIX_MAP os_type
    let shell := if suffix ≠ SUFFIX_MAP OsType.AIX then "bash" else suffix
    if pyTruthy run_command then
      "nohup " ++ shell ++ " " ++ run_command.getD "" ++ " &"
    else shell

/-- The base run_params list of source lines 191-207, in order. -/
def base_run_params (pipeline_id callback_url package_url token : String)
    (pc : PortConfig) (bt_file_servers data_servers task_servers : String) :
    List String :=
  [ "-s " ++ pipeline_id,
    "-r " ++ callback_url,
    "-l " ++ package_url,
    "-c " ++ token,
    "-O " ++ toString pc.io_port,
    "-E " ++ toString pc.file_svr_port,
    "-A " ++ toString pc.data_port,
    "-V " ++ toString pc.btsvr_thrift_port,
    "-B " ++ toString pc.bt_port,
    "-S " ++ toString pc.bt_port_start,
    "-Z " ++ toString pc.bt_port_end,
    "-K " ++ toString pc.tracker_port,
    "-e \"" ++ bt_file_servers ++ "\"",
    "-a \"" ++ data_servers ++ "\"",
    "-k \"" ++ task_servers ++ "\"" ]

/-- The InstallationTools output record (source lines 27-65). -/
structure InstallationTools where
  script_file_name : String
  dest_dir : String
  win_commands : List String
  upstream_nodes : List String
  jump_server : Option Host
  pre_commands : List String
  run_command : String
  host : Host
  ap : AccessPoint
  identity_data : IdentityData
  proxies : List Host

/-- Source lines 298-319: the common tail of gen_commands.  chmod command,
pre-commands with the conditional mkdir, the list(set(...)) on the
upstream_nodes STRING (still the comma-joined task_servers string at this
point), and the InstallationTools construction. -/
def assemble_tools (script_file_name dest_dir : String)
    (win_commands : List String) (upstream_nodes_str : String)
    (jump_server : Option Host) (run_command download_cmd : String)
    (host : Host) (host_ap : AccessPoint) (identity_data : IdentityData)
    (proxies : List Host) : InstallationTools :=
  let chmod_cmd := "chmod +x " ++ dest_dir ++ script_file_name
  let pre_commands := [download_cmd, chmod_cmd]
  let pre_commands :=
    if path_ne_tmp dest_dir then ("mkdir -p " ++ dest_dir) :: pre_commands
    else pre_commands
  let upstream_nodes := pyStrSetList upstream_nodes_str
  { script_file_name := script_file_name, dest_dir := dest_dir,
    win_commands := win_commands, upstream_nodes := upstream_nodes,
    jump_server := jump_server, pre_commands := pre_commands,
    run_command := run_command, host := host, ap := host_ap,
    identity_data := identity_data, proxies := proxies }

/-- Source lines 253-261: the install-channel special parameters appended in
the relay branch.  The source re-reads host.install_channel there, which the
Env lookup models; unpacking a missing record is the MissingInstallChannel
error. -/
def channel_extra_params (env : Env) (host : Host)
    (run_params : List String) : Except GenError (List String) :=
  if host.install_channel_id.isSome then
    match env.install_channel_of host.install_channel_id with
    | none => Except.error GenError.MissingInstallChannel
    | some ch =>
      let ps :=
        if ch.agent_download_proxy then run_params ++ ["-ADP \x27True\x27"]
        else run_params
      let ps :=
        match ch.channel_proxy_address with
        | some cpa =>
          if !(cpa == "") then ps ++ ["-CPA \x27" ++ cpa ++ "\x27"] else ps
        | none => ps
      Except.ok ps
  else Except.ok run_params

/-- Source lines 210-319 after check_run_commands has passed: script choice,
branch on the relay script, command assembly. -/
def gen_commands_rest (env : Env) (host : Host) (is_uninstall : Bool)
    (identity_data : IdentityData) (host_ap : AccessPoint)
    (proxies : List Host) (jump_server : Option Host) (package_url : String)
    (run_params : List String) (upstream_nodes : String) :
    Except GenError InstallationTools :=
  let agent_config := host_ap.agent_config host.os_type
  let install_path := agent_config.setup_path
  let script_file_name := choose_script_file host
  let dest_dir := suffix_slash host.os_type agent_config.temp_path
  if script_file_name = SETUP_PAGENT_PY then
    let run_params := run_params ++ ["-L " ++ env.settings.DOWNLOAD_PATH]
    let dest_dir := suffix_slash OsType.LINUX (host_ap.agent_config OsType.LINUX).temp_path
    let run_params :=
      if host.is_manual then (dest_dir ++ script_file_name ++ " ") :: run_params
      else run_params
    let host_tmp_path := suffix_slash host.os_type agent_config.temp_path
    let host_identity :=
      if identity_data.auth_type = AuthType.KEY then identity_data.key
      else identity_data.password
    let host_shell := format_run_command_by_os_type host.os_type
    let run_params := run_params ++
      [ "-HLIP " ++ pyOr host.login_ip host.inner_ip,
        "-HIIP " ++ host.inner_ip,
        "-HA " ++ identity_data.account,
        "-HP " ++ toString identity_data.port,
        "-HI \x27" ++ host_identity ++ "\x27",
        "-HC " ++ toString host.bk_cloud_id,
        "-HNT " ++ host.node_type.str,
        "-HOT " ++ host.os_type.lowerStr,
        "-HDD \x27" ++ host_tmp_path ++ "\x27",
        "-HPP \x27" ++ toString env.settings.BK_NODEMAN_NGINX_PROXY_PASS_PORT ++ "\x27",
        "-HSN \x27" ++ SCRIPT_FILE_NAME_MAP host.os_type ++ "\x27",
        "-HS \x27" ++ host_shell ++ "\x27" ]
    match jump_server with
    | none => Except.error GenError.NoneJumpServer
    | some js =>
      let run_params := run_params ++
        [ "-p \x27" ++ install_path ++ "\x27",
          "-I " ++ js.inner_ip,
          "-o " ++ gen_nginx_download_url env.settings js.inner_ip,
          if is_uninstall then "-R" else "" ]
      match channel_extra_params env host run_params with
      | Except.error e => Except.error e
      | Except.ok run_params =>
        let run_command := String.intercalate " " run_params
        let download_cmd :=
          "if [ ! -e " ++ dest_dir ++ script_file_name ++ " ] || " ++
          "[ \x60curl " ++ package_url ++ "/" ++ script_file_name ++
          " -s | md5sum | awk \x27\x7bprint $1\x7d\x27\x60 " ++
          "!= \x60md5sum " ++ dest_dir ++ script_file_name ++
          " | awk \x27\x7bprint $1\x7d\x27\x60 ]; then " ++
          "curl " ++ package_url ++ "/" ++ script_file_name ++ " -o " ++
          dest_dir ++ script_file_name ++ " --connect-timeout 5 -sSf " ++
          "&& chmod +x " ++ dest_dir ++ script_file_name ++ "; fi"
        Except.ok (assemble_tools script_file_name dest_dir [] upstream_nodes
          jump_server run_command download_cmd host host_ap identity_data proxies)
  else
    let run_params := run_params ++
      [ "-i " ++ toString host.bk_cloud_id,
        "-I " ++ host.inner_ip,
        "-N SERVER",
        "-p " ++ install_path,
        "-T " ++ dest_dir,
        if is_uninstall then "-R" else "" ]
    let run_command := format_run_command_by_os_type host.os_type
      (some (dest_dir ++ script_file_name ++ " " ++ String.intercalate " " run_params))
    let win_commands :=
      if host.os_type = OsType.WINDOWS then
        [ "del /q /s /f " ++ dest_dir ++ script_file_name ++ " " ++
            dest_dir ++ GSECTL_BAT,
          dest_dir ++ "curl.exe " ++ host_ap.package_inner_url ++ "/" ++
            script_file_name ++ " -o " ++ dest_dir ++ script_file_name ++ " -sSf",
          run_command ]
      else []
    let download_cmd := "curl " ++ package_url ++ "/" ++ script_file_name ++
      " -o " ++ dest_dir ++ script_file_name ++ " --connect-timeout 5 -sSf"
    Except.ok (assemble_tools script_file_name dest_dir win_commands
      upstream_nodes jump_server run_command download_cmd host host_ap
      identity_data proxies)

/-- gen_commands of the source (lines 149-319).  The four or-defaults of the
batch-friendly Optional parameters are resolved by the caller (as
batch_gen_commands does); the remaining body is embedded in source order:
fetch_gse_servers, the 7-way unpack whose two data_servers targets are bound
in sequence (the later binding, slot four, is the one the rest of the body
reads, exactly as Python leaves it), token issuance, the base parameter
list, check_run_commands, then the branch work in gen_commands_rest. -/
def gen_commands (env : Env) (host : Host) (pipeline_id : String)
    (is_uninstall : Bool) (identity_data : IdentityData)
    (host_ap : AccessPoint) (proxies : List Host)
    (install_channel : Option InstallChannel) :
    Except GenError InstallationTools :=
  match fetch_gse_servers env host host_ap proxies install_channel with
  | Except.error e => Except.error e
  | Except.ok (jump_server, bt_file_servers, _data_servers_overwritten,
      data_servers, task_servers, package_url, callback_url) =>
    let upstream_nodes := task_servers
    let token := env.encrypt (host.inner_ip ++ "|" ++ toString host.bk_cloud_id
      ++ "|" ++ pipeline_id ++ "|" ++ env.time_time)
    let run_params := base_run_params pipeline_id callback_url
      package_url token host_ap.port_config bt_file_servers data_servers
      task_servers
    match check_run_commands run_params with
    | Except.error e => Except.error e
    | Except.ok _ =>
      gen_commands_rest env host is_uninstall identity_data host_ap proxies
        jump_server package_url run_params upstream_nodes

/-- Python dict item assignment, observationally: a later insert wins on
lookup, other keys are unaffected. -/
def dictInsert {β : Type} (m : List (Nat × β)) (k : Nat) (v : β) :
    List (Nat × β) := (k, v) :: m

/-- The loop of batch_gen_commands (source lines 341-357), carrying the two
lazily populated caches (proxies by cloud id, install channel by channel id)
and the result map.  A raised exception aborts the loop, as in the source. -/
def batch_gen_commands_go (env : Env) (pipeline_id : String)
    (is_uninstall : Bool) :
    List Host → List (Nat × List Host) →
    List (Option Nat × Option InstallChannel) →
    List (Nat × InstallationTools) →
    Except GenError (List (Nat × InstallationTools))
  | [], _, _, acc => Except.ok acc
  | host :: rest, cloud_cache, channel_cache, acc =>
    let host_ap := env.ap_id_obj_map host.ap_id
    let identity_data := (env.bulk_identity_of host.bk_host_id).getD host.identity
    let cloud_cache :=
      if (cloud_cache.lookup host.bk_cloud_id).isSome then cloud_cache
      else cloud_cache ++ [(host.bk_cloud_id, env.proxies_of_cloud host.bk_cloud_id)]
    let proxies := (cloud_cache.lookup host.bk_cloud_id).getD []
    let channel_cache :=
      if (channel_cache.lookup host.install_channel_id).isSome then channel_cache
      else channel_cache ++
        [(host.install_channel_id, env.install_channel_of host.install_channel_id)]
    let install_channel := (channel_cache.lookup host.install_channel_id).getD none
    match gen_commands env host pipeline_id is_uninstall identity_data host_ap
        proxies install_channel with
    | Except.error e => Except.error e
    | Except.ok tools =>
      batch_gen_commands_go env pipeline_id is_uninstall rest cloud_cache
        channel_cache (dictInsert acc host.bk_host_id tools)

/-- batch_gen_commands of the source (lines 329-359). -/
def batch_gen_commands (env : Env) (hosts : List Host) (pipeline_id : String)
    (is_uninstall : Bool) : Except GenError (List (Nat × InstallationTools)) :=
  batch_gen_commands_go env pipeline_id is_uninstall hosts [] [] []

/-- The per-host plan generation with the inputs exactly as
batch_gen_commands resolves them for that host. -/
def batch_host_plan (env : Env) (pipeline_id : String) (is_uninstall : Bool)
    (host : Host) : Except GenError InstallationTools :=
  gen_commands env host pipeline_id is_uninstall
    ((env.bulk_identity_of host.bk_host_id).getD host.identity)
    (env.ap_id_obj_map host.ap_id)
    (env.proxies_of_cloud host.bk_cloud_id)
    (env.install_channel_of host.install_channel_id)

/-- Whether an Except value is a success. -/
def isOkE {ε α : Type} : Except ε α → Bool
  | Except.ok _ => true
  | Except.error _ => false

/-- Whether a planner result is a GenCommandsError (the validation error). -/
def is_gen_commands_error {α : Type} : Except GenError α → Bool
  | Except.error (GenError.GenCommandsError _) => true
  | _ => false

/-- Accessor: jump_server presence of a successful plan (false on error). -/
def plan_jump_isSome : Except GenError InstallationTools → Bool
  | Except.ok t => t.jump_server.isSome
  | Except.error _ => false

/-- Accessor: win_commands of a successful plan (empty on error). -/
def plan_win_commands : Except GenError InstallationTools → List String
  | Except.ok t => t.win_commands
  | Except.error _ => []

/-- Accessor: dest_dir of a successful plan. -/
def plan_dest_dir : Except GenError InstallationTools → String
  | Except.ok t => t.dest_dir
  | Except.error _ => ""

/-- Accessor: script_file_name of a successful plan. -/
def plan_script_file_name : Except GenError InstallationTools → String
  | Except.ok t => t.script_file_name
  | Except.error _ => ""

/-- Accessor: run_command of a successful plan. -/
def plan_run_command : Except GenError InstallationTools → String
  | Except.ok t => t.run_command
  | Except.error _ => ""

/-- Accessor: upstream_nodes of a successful plan. -/
def plan_upstream_nodes : Except GenError InstallationTools → List String
  | Except.ok t => t.upstream_nodes
  | Except.error _ => []

/-- Accessor: pre_commands of a successful plan. -/
def plan_pre_commands : Except GenError InstallationTools → List String
  | Except.ok t => t.pre_commands
  | Except.error _ => []

/-- Accessor: the jump-server slot of a fetch_gse_servers result. -/
def fetch_jump : Except GenError GseTuple → Option Host
  | Except.ok (js, _, _, _, _, _, _) => js
  | Except.error _ => none

/-- Accessor: the bt-file-server slot of a fetch_gse_servers result. -/
def fetch_bt : Except GenError GseTuple → String
  | Except.ok (_, bt, _, _, _, _, _) => bt
  | Except.error _ => ""

/-- Accessor: the FIRST data-server slot of a fetch result (slot three, the
unpack target that Python immediately overwrites). -/
def fetch_data_first : Except GenError GseTuple → String
  | Except.ok (_, _, d, _, _, _, _) => d
  | Except.error _ => ""

/-- Accessor: the SECOND data-server slot of a fetch result (slot four, the
binding gen_commands actually reads). -/
def fetch_data_used : Except GenError GseTuple → String
  | Except.ok (_, _, _, d, _, _, _) => d
  | Except.error _ => ""

/-- Accessor: the task-server slot of a fetch result (slot five). -/
def fetch_task : Except GenError GseTuple → String
  | Except.ok (_, _, _, _, ts, _, _) => ts
  | Except.error _ => ""

/-- Accessor: the package-url slot of a fetch result (slot six). -/
def fetch_package_url : Except GenError GseTuple → String
  | Except.ok (_, _, _, _, _, pu, _) => pu
  | Except.error _ => ""

/-- Accessor: the callback-url slot of a fetch result (slot seven). -/
def fetch_callback_url : Except GenError GseTuple → String
  | Except.ok (_, _, _, _, _, _, cb) => cb
  | Except.error _ => ""

/-- Definition following the words of the spec (section 4.1 decision order):
the resolved data-server string.  Used only to compare against the tuple
slots the source produces. -/
def spec_resolved_data_servers (host : Host) (ap : AccessPoint)
    (proxies : List Host) (ch : Option InstallChannel) : String :=
  if host.install_channel_id.isSome then
    String.intercalate "," ((ch.map InstallChannel.dataserver).getD [])
  else
    match host.node_type with
    | NodeType.AGENT =>
      String.intercalate "," (ap.dataserver.map ServerEntry.inner_ip)
    | NodeType.PROXY =>
      String.intercalate "," (ap.dataserver.map ServerEntry.outer_ip)
    | NodeType.PAGENT =>
      String.intercalate "," ((proxies.map Host.inner_ip).eraseDups)

/-- Definition following the words of the spec (section 4.1 decision order):
the resolved task-server string. -/
def spec_resolved_task_servers (host : Host) (ap : AccessPoint)
    (proxies : List Host) (ch : Option InstallChannel) : String :=
  if host.install_channel_id.isSome then
    String.intercalate "," ((ch.map InstallChannel.taskserver).getD [])
  else
    match host.node_type with
    | NodeType.AGENT =>
      String.intercalate "," (ap.taskserver.map ServerEntry.inner_ip)
    | NodeType.PROXY =>
      String.intercalate "," (ap.taskserver.map ServerEntry.outer_ip)
    | NodeType.PAGENT =>
      String.intercalate "," ((proxies.map Host.inner_ip).eraseDups)

/-- Definition following the words of the spec (section 4.2, ordered):
script selection as a pure function of role, channel presence and OS. -/
def spec_script_selection (role : NodeType) (has_channel : Bool)
    (os : OsType) : String :=
  if role = NodeType.PROXY then "setup_proxy.sh"
  else if role = NodeType.PAGENT ∨ has_channel then SETUP_PAGENT_PY
  else SCRIPT_FILE_NAME_MAP os

/-- Accessor: the jump_server field of a successful plan (none on error). -/
def plan_jump_server : Except GenError InstallationTools → Option Host
  | Except.ok t => t.jump_server
  | Except.error _ => none

/-- Concrete port configuration used by the evaluation fixtures below. -/
def pc1 : PortConfig :=
  { io_port := 48668, file_svr_port := 58925, data_port := 58625,
    btsvr_thrift_port := 58930, bt_port := 10020, bt_port_start := 60020,
    bt_port_end := 60030, tracker_port := 10030 }

/-- Concrete per-OS agent configuration table. -/
def agent_cfg : OsType → AgentConfig
  | OsType.WINDOWS => { setup_path := "c:\\gse", temp_path := "C:\\tmp" }
  | _ => { setup_path := "/usr/local/gse", temp_path := "/tmp" }

/-- Concrete access point. -/
def ap1 : AccessPoint :=
  { btfileserver := [{ inner_ip := "1.1.1.1", outer_ip := "8.8.8.1" },
                     { inner_ip := "1.1.1.2", outer_ip := "8.8.8.2" }],
    dataserver := [{ inner_ip := "2.1.1.1", outer_ip := "9.8.8.1" }],
    taskserver := [{ inner_ip := "3.1.1.1", outer_ip := "7.8.8.1" }],
    package_inner_url := "http://1.1.1.1:17980",
    package_outer_url := "http://8.8.8.1:17980",
    outer_callback_url := "",
    port_config := pc1,
    agent_config := agent_cfg }

/-- Concrete identity data. -/
def idd1 : IdentityData :=
  { bk_host_id := 101, auth_type := AuthType.PASSWORD, key := "",
    password := "pw", account := "root", port := 22 }

/-- A direct Linux AGENT host with no install channel. -/
def hostA : Host :=
  { bk_host_id := 101, bk_cloud_id := 0, ap_id := 1, inner_ip := "192.168.0.1",
    login_ip := "", os_type := OsType.LINUX, node_type := NodeType.AGENT,
    install_channel_id := none, is_manual := false, identity := idd1 }

/-- Proxy hosts of cloud 1; the first two share one inner IP. -/
def proxy1 : Host :=
  { bk_host_id := 201, bk_cloud_id := 1, ap_id := 1, inner_ip := "10.0.0.1",
    login_ip := "", os_type := OsType.LINUX, node_type := NodeType.PROXY,
    install_channel_id := none, is_manual := false, identity := idd1 }

/-- Second proxy with the same inner IP as proxy1. -/
def proxy1b : Host :=
  { bk_host_id := 202, bk_cloud_id := 1, ap_id := 1, inner_ip := "10.0.0.1",
    login_ip := "", os_type := OsType.LINUX, node_type := NodeType.PROXY,
    install_channel_id := none, is_manual := false, identity := idd1 }

/-- Third proxy with a distinct inner IP. -/
def proxy2 : Host :=
  { bk_host_id := 203, bk_cloud_id := 1, ap_id := 1, inner_ip := "10.0.0.2",
    login_ip := "", os_type := OsType.LINUX, node_type := NodeType.PROXY,
    install_channel_id := none, is_manual := false, identity := idd1 }

/-- The proxy list with the repeated inner IP 10.0.0.1. -/
def proxies1 : List Host := [proxy1, proxy1b, proxy2]

/-- A PAGENT host of cloud 1 (no channel), installed through proxies1. -/
def hostPB : Host :=
  { bk_host_id := 102, bk_cloud_id := 1, ap_id := 1, inner_ip := "192.168.1.7",
    login_ip := "", os_type := OsType.LINUX, node_type := NodeType.PAGENT,
    install_channel_id := none, is_manual := false, identity := idd1 }

/-- A PAGENT host of cloud 2, used where no proxy is reachable. -/
def hostPBad : Host :=
  { bk_host_id := 103, bk_cloud_id := 2, ap_id := 1, inner_ip := "192.168.1.8",
    login_ip := "", os_type := OsType.LINUX, node_type := NodeType.PAGENT,
    install_channel_id := none, is_manual := false, identity := idd1 }

/-- A Windows AGENT host with no install channel (direct branch). -/
def hostW : Host :=
  { bk_host_id := 105, bk_cloud_id := 0, ap_id := 1, inner_ip := "192.168.3.3",
    login_ip := "", os_type := OsType.WINDOWS, node_type := NodeType.AGENT,
    install_channel_id := none, is_manual := false, identity := idd1 }

/-- A jump host referenced by the concrete install channel. -/
def hostJ : Host :=
  { bk_host_id := 301, bk_cloud_id := 0, ap_id := 1, inner_ip := "7.7.7.7",
    login_ip := "", os_type := OsType.LINUX, node_type := NodeType.PROXY,
    install_channel_id := none, is_manual := false, identity := idd1 }

/-- A concrete install channel whose pools differ from every ap1 pool. -/
def chX : InstallChannel :=
  { jump_server := hostJ, btfileserver := ["9.9.9.9"], dataserver := ["9.9.9.8"],
    taskserver := ["9.9.9.7"], agent_download_proxy := true,
    channel_proxy_address := none }

/-- A PROXY host that has an install channel configured. -/
def hostPX : Host :=
  { bk_host_id := 104, bk_cloud_id := 0, ap_id := 1, inner_ip := "192.168.2.2",
    login_ip := "", os_type := OsType.LINUX, node_type := NodeType.PROXY,
    install_channel_id := some 5, is_manual := false, identity := idd1 }

/-- Concrete settings with valid callback URLs. -/
def settings1 : Settings :=
  { BK_NODEMAN_NGINX_DOWNLOAD_PORT := 17980,
    BKAPP_NODEMAN_CALLBACK_URL := "http://127.0.0.1/backend",
    BKAPP_NODEMAN_OUTER_CALLBACK_URL := "http://10.0.0.9/backend",
    DOWNLOAD_PATH := "/data/bkee/public/bknodeman/download",
    BK_NODEMAN_NGINX_PROXY_PASS_PORT := 17981 }

/-- Concrete environment: identity token issuer, fixed timestamp, first
live proxy chosen, no channels, every ap id resolved to ap1, proxies of
every cloud resolved to proxies1. -/
def env1 : Env :=
  { settings := settings1, encrypt := fun s => s, time_time := "1600000000.0",
    choose_alive_proxy := fun l => l.head?,
    install_channel_of := fun _ => none,
    ap_id_obj_map := fun _ => ap1,
    bulk_identity_of := fun _ => none,
    proxies_of_cloud := fun _ => proxies1 }

/-- Environment like env1 but with no proxy in any cloud. -/
def env2 : Env :=
  { settings := settings1, encrypt := fun s => s, time_time := "1600000000.0",
    choose_alive_proxy := fun l => l.head?,
    install_channel_of := fun _ => none,
    ap_id_obj_map := fun _ => ap1,
    bulk_identity_of := fun _ => none,
    proxies_of_cloud := fun _ => [] }

/-- Appending to a string concatenates the character lists. -/
theorem str_data_append (a b : String) : (a ++ b).data = a.data ++ b.data := by
  cases a
  cases b
  rfl

/-- The -r scan on a parameter is decided by the first two characters of
its literal flag part. -/
theorem strStartsWith_of_data (f x : String) (c₁ c₂ : Char) (lit : List Char)
    (hf : f.data = c₁ :: c₂ :: lit) :
    strStartsWith (f ++ x) "-r" = (('-' == c₁) && ('r' == c₂)) := by
  have hr : "-r".data = ['-', 'r'] := rfl
  simp [strStartsWith, str_data_append, hf, hr, List.isPrefixOf_cons₂,
    List.cons_append]

/-- Same as strStartsWith_of_data, for a parameter with two appends. -/
theorem strStartsWith_of_data2 (f x y : String) (c₁ c₂ : Char) (lit : List Char)
    (hf : f.data = c₁ :: c₂ :: lit) :
    strStartsWith (f ++ x ++ y) "-r" = (('-' == c₁) && ('r' == c₂)) := by
  have hr : "-r".data = ['-', 'r'] := rfl
  simp [strStartsWith, str_data_append, hf, hr, List.isPrefixOf_cons₂,
    List.cons_append]

/-- check_run_commands on the base parameter list raises exactly when the
callback parameter fails the pattern: every other parameter has a flag
other than -r, so only the callback parameter is inspected. -/
theorem check_base (pid cb pu tok : String) (pc : PortConfig)
    (bt d ts : String) :
    check_run_commands (base_run_params pid cb pu tok pc bt d ts) =
      (if reMatchCallback ("-r " ++ cb) then Except.ok () else
        Except.error (GenError.GenCommandsError CALLBACK_URL_ERR_CONTEXT)) := by
  have h0 : strStartsWith ("-s " ++ pid) "-r" = false := by
    rw [strStartsWith_of_data "-s " pid '-' 's' [' '] rfl]; decide
  have h1 : strStartsWith ("-r " ++ cb) "-r" = true := by
    rw [strStartsWith_of_data "-r " cb '-' 'r' [' '] rfl]; decide
  have h2 : strStartsWith ("-l " ++ pu) "-r" = false := by
    rw [strStartsWith_of_data "-l " pu '-' 'l' [' '] rfl]; decide
  have h3 : strStartsWith ("-c " ++ tok) "-r" = false := by
    rw [strStartsWith_of_data "-c " tok '-' 'c' [' '] rfl]; decide
  have h4 : strStartsWith ("-O " ++ toString pc.io_port) "-r" = false := by
    rw [strStartsWith_of_data "-O " (toString pc.io_port) '-' 'O' [' '] rfl]; decide
  have h5 : strStartsWith ("-E " ++ toString pc.file_svr_port) "-r" = false := by
    rw [strStartsWith_of_data "-E " (toString pc.file_svr_port) '-' 'E' [' '] rfl]; decide
  have h6 : strStartsWith ("-A " ++ toString pc.data_port) "-r" = false := by
    rw [strStartsWith_of_data "-A " (toString pc.data_port) '-' 'A' [' '] rfl]; decide
  have h7 : strStartsWith ("-V " ++ toString pc.btsvr_thrift_port) "-r" = false := by
    rw [strStartsWith_of_data "-V " (toString pc.btsvr_thrift_port) '-' 'V' [' '] rfl]; decide
  have h8 : strStartsWith ("-B " ++ toString pc.bt_port) "-r" = false := by
    rw [strStartsWith_of_data "-B " (toString pc.bt_port) '-' 'B' [' '] rfl]; decide
  have h9 : strStartsWith ("-S " ++ toString pc.bt_port_start) "-r" = false := by
    rw [strStartsWith_of_data "-S " (toString pc.bt_port_start) '-' 'S' [' '] rfl]; decide
  have h10 : strStartsWith ("-Z " ++ toString pc.bt_port_end) "-r" = false := by
    rw [strStartsWith_of_data "-Z " (toString pc.bt_port_end) '-' 'Z' [' '] rfl]; decide
  have h11 : strStartsWith ("-K " ++ toString pc.tracker_port) "-r" = false := by
    rw [strStartsWith_of_data "-K " (toString pc.tracker_port) '-' 'K' [' '] rfl]; decide
  have h12 : strStartsWith ("-e \"" ++ bt ++ "\"") "-r" = false := by
    rw [strStartsWith_of_data2 "-e \"" bt "\"" '-' 'e' ([' ', '"']) rfl]; decide
  have h13 : strStartsWith ("-a \"" ++ d ++ "\"") "-r" = false := by
    rw [strStartsWith_of_data2 "-a \"" d "\"" '-' 'a' ([' ', '"']) rfl]; decide
  have h14 : strStartsWith ("-k \"" ++ ts ++ "\"") "-r" = false := by
    rw [strStartsWith_of_data2 "-k \"" ts "\"" '-' 'k' ([' ', '"']) rfl]; decide
  simp only [base_run_params, check_run_commands, h0, h1, h2, h3, h4, h5, h6,
    h7, h8, h9, h10, h11, h12, h13, h14, Bool.false_and, Bool.true_and,
    Bool.false_eq_true, if_false, ite_false]
  cases hm : reMatchCallback ("-r " ++ cb) <;> simp [hm]

/-- C8: script selection is a pure function of role, channel presence and
OS, read as an ordered decision list: role PROXY takes the proxy installer
script first; then role PAGENT or a non-empty install channel takes the
deep/relay (pagent) installer script; every other host takes the
OS-specific agent installer script from the fixed OS-to-filename table.
choose_script_file coincides with that specification on every host. -/
theorem c8_script_selection_pure (host : Host) :
    choose_script_file host =
      spec_script_selection host.node_type host.install_channel_id.isSome
        host.os_type := by
  cases hn : host.node_type <;> cases hc : host.install_channel_id <;>
    simp [choose_script_file, spec_script_selection, hn, hc]

/-- C10: with no command string, format_run_command_by_os_type returns the
bare shell name, the AIX shell (the SUFFIX_MAP value for AIX) on AIX and
bash on every other OS including Windows, so the -HS hint emitted for a
Windows target host in the relay branch is bash; with a non-empty command
string it returns the command unmodified on Windows and the detached
nohup shell wrapper elsewhere. -/
theorem c10_format_run_command (os : OsType) (c : String) :
    (format_run_command_by_os_type os none =
      (if os = OsType.AIX then SUFFIX_MAP OsType.AIX else "bash"))
    ∧ ("-HS \x27" ++ format_run_command_by_os_type OsType.WINDOWS none ++ "\x27"
        = "-HS \x27bash\x27")
    ∧ (c ≠ "" → format_run_command_by_os_type OsType.WINDOWS (some c) = c)
    ∧ (c ≠ "" → os ≠ OsType.WINDOWS →
        format_run_command_by_os_type os (some c) =
          "nohup " ++ (if os = OsType.AIX then SUFFIX_MAP OsType.AIX else "bash")
            ++ " " ++ c ++ " &") := by
  refine ⟨?_, rfl, ?_, ?_⟩
  · cases os <;> rfl
  · intro hc
    have hb : (c == "") = false := by
      cases hcb : c == "" with
      | true => exact absurd (by simpa using hcb) hc
      | false => rfl
    simp [format_run_command_by_os_type, pyTruthy, hb]
  · intro hc hw
    have hb : (c == "") = false := by
      cases hcb : c == "" with
      | true => exact absurd (by simpa using hcb) hc
      | false => rfl
    cases os with
    | LINUX => simp [format_run_command_by_os_type, pyTruthy, hb, SUFFIX_MAP]
    | WINDOWS => exact absurd rfl hw
    | AIX => simp [format_run_command_by_os_type, pyTruthy, hb, SUFFIX_MAP]

/-- Witness for C10 at concrete inputs. -/
theorem c10_format_run_command_witness :
    (("x" : String) ≠ "")
    ∧ format_run_command_by_os_type OsType.WINDOWS (some "x") = "x"
    ∧ format_run_command_by_os_type OsType.AIX (some "x") =
        "nohup " ++ (if OsType.AIX = OsType.AIX then SUFFIX_MAP OsType.AIX
          else "bash") ++ " " ++ "x" ++ " &" :=
  ⟨by decide, (c10_format_run_command OsType.AIX "x").2.2.1 (by decide),
    (c10_format_run_command OsType.AIX "x").2.2.2 (by decide) (by decide)⟩

/-- C1 (code bug): at the failing input of the claim, a PAGENT host whose
proxies carry the repeated inner IPs 10.0.0.1, 10.0.0.1, 10.0.0.2, the plan
generates successfully but its upstream_nodes field is NOT the deduplicated
list of upstream node addresses: the source applies list(set(...)) to the
comma-joined task-server STRING, so upstream_nodes is the list of the five
distinct characters of 10.0.0.1,10.0.0.2 and contains neither IP, while the
claim and the InstallationTools documentation (upstream nodes, usually the
proxies) require exactly the two distinct IP strings. -/
theorem c1_upstream_nodes_character_bug :
    (gen_commands env1 hostPB "p1" false idd1 ap1 proxies1 none).map
        (fun t => (t.upstream_nodes.contains "10.0.0.1",
          t.upstream_nodes.contains "10.0.0.2",
          t.upstream_nodes.contains "1",
          t.upstream_nodes.contains ",",
          t.upstream_nodes.length)) =
      Except.ok (false, false, true, true, 5) := by
  rfl

/-- C7 counterexample: a PROXY host that has an install channel resolves its
server pools from the channel, not from the outer addresses of the access
point pools, so the claim as stated (every PROXY host uses the outer_ip
fields exclusively) is false at this input. -/
theorem c7_proxy_channel_counterexample :
    fetch_bt (fetch_gse_servers env1 hostPX ap1 [] (some chX)) = "9.9.9.9"
    ∧ String.intercalate "," (ap1.btfileserver.map ServerEntry.outer_ip) =
        "8.8.8.1,8.8.8.2"
    ∧ fetch_data_used (fetch_gse_servers env1 hostPX ap1 [] (some chX)) =
        "9.9.9.8"
    ∧ String.intercalate "," (ap1.dataserver.map ServerEntry.outer_ip) =
        "9.8.8.1"
    ∧ ("9.9.9.9" : String) ≠ "8.8.8.1,8.8.8.2" :=
  ⟨rfl, rfl, rfl, rfl, by decide⟩

/-- C7 (amended): for every AGENT host with no install channel the resolved
bt-file, data and task server strings are the comma-joins of the access
point pools inner_ip fields, and for every PROXY host WITH NO INSTALL
CHANNEL they are the comma-joins of the outer_ip fields. -/
theorem c7_address_family_amended (env : Env) (host : Host)
    (ap : AccessPoint) (px : List Host) (ch : Option InstallChannel)
    (hch : host.install_channel_id = none) :
    (host.node_type = NodeType.AGENT →
      fetch_bt (fetch_gse_servers env host ap px ch) =
        String.intercalate "," (ap.btfileserver.map ServerEntry.inner_ip)
      ∧ fetch_data_used (fetch_gse_servers env host ap px ch) =
        String.intercalate "," (ap.dataserver.map ServerEntry.inner_ip)
      ∧ fetch_task (fetch_gse_servers env host ap px ch) =
        String.intercalate "," (ap.taskserver.map ServerEntry.inner_ip))
    ∧ (host.node_type = NodeType.PROXY →
      fetch_bt (fetch_gse_servers env host ap px ch) =
        String.intercalate "," (ap.btfileserver.map ServerEntry.outer_ip)
      ∧ fetch_data_used (fetch_gse_servers env host ap px ch) =
        String.intercalate "," (ap.dataserver.map ServerEntry.outer_ip)
      ∧ fetch_task (fetch_gse_servers env host ap px ch) =
        String.intercalate "," (ap.taskserver.map ServerEntry.outer_ip)) := by
  constructor
  · intro hn
    simp [fetch_gse_servers, hch, hn, fetch_bt, fetch_data_used, fetch_task]
  · intro hn
    simp [fetch_gse_servers, hch, hn, fetch_bt, fetch_data_used, fetch_task]

/-- Witness for the amended C7 at a concrete AGENT host. -/
theorem c7_address_family_amended_witness :
    hostA.install_channel_id = none
    ∧ hostA.node_type = NodeType.AGENT
    ∧ fetch_bt (fetch_gse_servers env1 hostA ap1 [] none) =
        String.intercalate "," (ap1.btfileserver.map ServerEntry.inner_ip) :=
  ⟨rfl, rfl,
    ((c7_address_family_amended env1 hostA ap1 [] none rfl).1 rfl).1⟩

/-- C4: plan generation is deterministic.  With the embedding every input
of gen_commands (the fixed timestamp and the token issuer inside env, the
host snapshot, the external lookup results) is explicit, and two calls on
equal inputs return equal results, in particular byte-identical run_cmd,
pre_commands, win_commands, dest_dir, upstream_nodes, jump_server. -/
theorem c4_gen_commands_deterministic (envA envB : Env) (hostX hostY : Host)
    (pidA pidB : String) (uA uB : Bool) (iddA iddB : IdentityData)
    (apA apB : AccessPoint) (pxA pxB : List Host)
    (chA chB : Option InstallChannel)
    (he : envA = envB) (hh : hostX = hostY) (hp : pidA = pidB) (hu : uA = uB)
    (hi : iddA = iddB) (ha : apA = apB) (hx : pxA = pxB) (hc : chA = chB) :
    gen_commands envA hostX pidA uA iddA apA pxA chA =
      gen_commands envB hostY pidB uB iddB apB pxB chB
    ∧ plan_run_command (gen_commands envA hostX pidA uA iddA apA pxA chA) =
        plan_run_command (gen_commands envB hostY pidB uB iddB apB pxB chB)
    ∧ plan_pre_commands (gen_commands envA hostX pidA uA iddA apA pxA chA) =
        plan_pre_commands (gen_commands envB hostY pidB uB iddB apB pxB chB)
    ∧ plan_win_commands (gen_commands envA hostX pidA uA iddA apA pxA chA) =
        plan_win_commands (gen_commands envB hostY pidB uB iddB apB pxB chB)
    ∧ plan_dest_dir (gen_commands envA hostX pidA uA iddA apA pxA chA) =
        plan_dest_dir (gen_commands envB hostY pidB uB iddB apB pxB chB)
    ∧ plan_upstream_nodes (gen_commands envA hostX pidA uA iddA apA pxA chA) =
        plan_upstream_nodes (gen_commands envB hostY pidB uB iddB apB pxB chB)
    ∧ plan_jump_server (gen_commands envA hostX pidA uA iddA apA pxA chA) =
        plan_jump_server (gen_commands envB hostY pidB uB iddB apB pxB chB) := by
  subst he hh hp hu hi ha hx hc
  exact ⟨rfl, rfl, rfl, rfl, rfl, rfl, rfl⟩

/-- Witness for C4 at concrete inputs. -/
theorem c4_gen_commands_deterministic_witness :
    gen_commands env1 hostA "p1" false idd1 ap1 [] none =
      gen_commands env1 hostA "p1" false idd1 ap1 [] none
    ∧ plan_run_command (gen_commands env1 hostA "p1" false idd1 ap1 [] none) =
        plan_run_command (gen_commands env1 hostA "p1" false idd1 ap1 [] none)
    ∧ plan_pre_commands (gen_commands env1 hostA "p1" false idd1 ap1 [] none) =
        plan_pre_commands (gen_commands env1 hostA "p1" false idd1 ap1 [] none)
    ∧ plan_win_commands (gen_commands env1 hostA "p1" false idd1 ap1 [] none) =
        plan_win_commands (gen_commands env1 hostA "p1" false idd1 ap1 [] none)
    ∧ plan_dest_dir (gen_commands env1 hostA "p1" false idd1 ap1 [] none) =
        plan_dest_dir (gen_commands env1 hostA "p1" false idd1 ap1 [] none)
    ∧ plan_upstream_nodes (gen_commands env1 hostA "p1" false idd1 ap1 [] none) =
        plan_upstream_nodes (gen_commands env1 hostA "p1" false idd1 ap1 [] none)
    ∧ plan_jump_server (gen_commands env1 hostA "p1" false idd1 ap1 [] none) =
        plan_jump_server (gen_commands env1 hostA "p1" false idd1 ap1 [] none) :=
  c4_gen_commands_deterministic env1 env1 hostA hostA "p1" "p1" false false
    idd1 idd1 ap1 ap1 [] [] none none rfl rfl rfl rfl rfl rfl rfl rfl

/-- channel_extra_params can only fail with MissingInstallChannel. -/
theorem channel_extra_error (env : Env) (host : Host) (ps : List String)
    (e : GenError) (h : channel_extra_params env host ps = Except.error e) :
    e = GenError.MissingInstallChannel := by
  unfold channel_extra_params at h
  by_cases hc : host.install_channel_id.isSome
  · rw [if_pos hc] at h
    cases hch : env.install_channel_of host.install_channel_id with
    | none =>
      rw [hch] at h
      exact (Except.error.injEq _ _).mp h.symm
    | some c =>
      rw [hch] at h
      simp at h
  · rw [if_neg hc] at h
    simp at h

/-- gen_commands_rest never returns the validation error: after the check
has passed, the only failures are the missing jump server and the missing
install channel record. -/
theorem rest_not_gen_error (env : Env) (host : Host) (u : Bool)
    (idd : IdentityData) (ap : AccessPoint) (px : List Host)
    (js : Option Host) (pu : String) (params : List String) (un : String) :
    is_gen_commands_error
      (gen_commands_rest env host u idd ap px js pu params un) = false := by
  unfold gen_commands_rest
  by_cases hs : choose_script_file host = SETUP_PAGENT_PY
  · rw [if_pos hs]
    cases js with
    | none => rfl
    | some j =>
      dsimp only
      split
      · next e heq => rw [channel_extra_error env host _ e heq]; rfl
      · rfl
  · rw [if_neg hs]
    rfl

/-- On success, gen_commands_rest passes its jump-server argument through to
the plan unchanged. -/
theorem rest_plan_jump (env : Env) (host : Host) (u : Bool)
    (idd : IdentityData) (ap : AccessPoint) (px : List Host)
    (js : Option Host) (pu : String) (params : List String) (un : String)
    (hok : isOkE (gen_commands_rest env host u idd ap px js pu params un) = true) :
    plan_jump_server (gen_commands_rest env host u idd ap px js pu params un)
      = js := by
  unfold gen_commands_rest at hok ⊢
  by_cases hs : choose_script_file host = SETUP_PAGENT_PY
  · rw [if_pos hs] at hok ⊢
    cases js with
    | none => exact absurd hok (by simp [isOkE])
    | some j =>
      dsimp only at hok ⊢
      split at hok
      · next e heq => exact absurd hok (by simp [isOkE])
      · next ps heq =>
        simp [plan_jump_server, assemble_tools]
  · rw [if_neg hs] at hok ⊢
    simp [plan_jump_server, assemble_tools]

/-- On success, the jump-server slot of fetch_gse_servers is present exactly
when the host has an install channel or its role is PAGENT. -/
theorem fetch_jump_char (env : Env) (host : Host) (ap : AccessPoint)
    (px : List Host) (ch : Option InstallChannel) (tup : GseTuple)
    (hf : fetch_gse_servers env host ap px ch = Except.ok tup) :
    tup.1.isSome =
      (host.install_channel_id.isSome || (host.node_type == NodeType.PAGENT)) := by
  unfold fetch_gse_servers at hf
  by_cases h1 : host.install_channel_id.isSome
  · rw [if_pos h1] at hf
    cases ch with
    | none => exact absurd hf (by simp)
    | some c =>
      simp at hf
      rw [← hf]
      simp [h1]
  · rw [if_neg h1] at hf
    have h1f : host.install_channel_id.isSome = false := by
      cases hx : host.install_channel_id.isSome with
      | true => exact absurd (by simp [hx]) h1
      | false => rfl
    cases hn : host.node_type with
    | AGENT =>
      rw [hn] at hf
      simp at hf
      rw [← hf]
      simp [h1f]
    | PROXY =>
      rw [hn] at hf
      simp at hf
      rw [← hf]
      simp [h1f]
    | PAGENT =>
      rw [hn] at hf
      simp at hf
      cases hcp : env.choose_alive_proxy px with
      | none => rw [hcp] at hf; exact absurd hf (by simp)
      | some j =>
        rw [hcp] at hf
        simp at hf
        rw [← hf]
        simp [h1f]

/-- A successful gen_commands call decomposes into a successful fetch, a
passed check, and the branch work of gen_commands_rest on the fetched
values. -/
theorem gen_ok_decomp (env : Env) (host : Host) (pid : String) (u : Bool)
    (idd : IdentityData) (ap : AccessPoint) (px : List Host)
    (ch : Option InstallChannel)
    (hok : isOkE (gen_commands env host pid u idd ap px ch) = true) :
    ∃ tup : GseTuple,
      fetch_gse_servers env host ap px ch = Except.ok tup ∧
      gen_commands env host pid u idd ap px ch =
        gen_commands_rest env host u idd ap px tup.1 tup.2.2.2.2.2.1
          (base_run_params pid tup.2.2.2.2.2.2
            tup.2.2.2.2.2.1
            (env.encrypt (host.inner_ip ++ "|" ++ toString host.bk_cloud_id
              ++ "|" ++ pid ++ "|" ++ env.time_time))
            ap.port_config tup.2.1 tup.2.2.2.1 tup.2.2.2.2.1)
          tup.2.2.2.2.1 := by
  cases hf : fetch_gse_servers env host ap px ch with
  | error e =>
    rw [gen_commands, hf] at hok
    exact absurd hok (by simp [isOkE])
  | ok tup =>
    obtain ⟨js, bt, d0, d, ts, pu, cb⟩ := tup
    refine ⟨(js, bt, d0, d, ts, pu, cb), rfl, ?_⟩
    rw [gen_commands, hf] at hok ⊢
    dsimp only at hok ⊢
    rw [check_base] at hok ⊢
    cases hm : reMatchCallback ("-r " ++ cb) with
    | false =>
      rw [hm] at hok
      exact absurd hok (by simp [isOkE])
    | true =>
      rfl

/-- plan_jump_isSome is the isSome of the jump accessor. -/
theorem plan_jump_isSome_eq (x : Except GenError InstallationTools) :
    plan_jump_isSome x = (plan_jump_server x).isSome := by
  cases x with
  | ok t => rfl
  | error e => rfl

/-- C6: for every successfully generated plan, the jump_server field is
non-null exactly when the host has an install channel (install_channel_id
set) or its role is PAGENT; AGENT and PROXY hosts without an install
channel get a null jump_server. -/
theorem c6_jump_server_iff (env : Env) (host : Host) (pid : String)
    (u : Bool) (idd : IdentityData) (ap : AccessPoint) (px : List Host)
    (ch : Option InstallChannel)
    (hok : isOkE (gen_commands env host pid u idd ap px ch) = true) :
    plan_jump_isSome (gen_commands env host pid u idd ap px ch) =
      (host.install_channel_id.isSome || (host.node_type == NodeType.PAGENT)) := by
  obtain ⟨tup, hf, hgen⟩ := gen_ok_decomp env host pid u idd ap px ch hok
  rw [hgen] at hok ⊢
  rw [plan_jump_isSome_eq, rest_plan_jump env host u idd ap px tup.1 _ _ _ hok]
  exact fetch_jump_char env host ap px ch tup hf

/-- Witness for C6 at a concrete AGENT host without channel. -/
theorem c6_jump_server_iff_witness :
    isOkE (gen_commands env1 hostA "p1" false idd1 ap1 [] none) = true
    ∧ plan_jump_isSome (gen_commands env1 hostA "p1" false idd1 ap1 [] none) =
        (hostA.install_channel_id.isSome || (hostA.node_type == NodeType.PAGENT)) :=
  ⟨rfl, c6_jump_server_iff env1 hostA "p1" false idd1 ap1 [] none rfl⟩

/-- C2: given that topology resolution succeeds, gen_commands raises the
validation error GenCommandsError exactly when the -r parameter (the
callback URL parameter) fails the anchored pattern https?://.+/backend; on
a mismatch no InstallationTools value is returned.  The concrete examples
of the claim behave as stated: http://example.com/backend passes while
http://example.com/other and ftp://example.com/backend fail. -/
theorem c2_callback_validation_iff (env : Env) (host : Host) (pid : String)
    (u : Bool) (idd : IdentityData) (ap : AccessPoint) (px : List Host)
    (ch : Option InstallChannel)
    (hfok : isOkE (fetch_gse_servers env host ap px ch) = true) :
    (is_gen_commands_error (gen_commands env host pid u idd ap px ch) =
      !(reMatchCallback
        ("-r " ++ fetch_callback_url (fetch_gse_servers env host ap px ch))))
    ∧ (is_gen_commands_error (gen_commands env host pid u idd ap px ch) = true →
        isOkE (gen_commands env host pid u idd ap px ch) = false)
    ∧ reMatchCallback "-r http://example.com/backend" = true
    ∧ reMatchCallback "-r http://example.com/other" = false
    ∧ reMatchCallback "-r ftp://example.com/backend" = false := by
  refine ⟨?_, ?_, by decide, by decide, by decide⟩
  · cases hf : fetch_gse_servers env host ap px ch with
    | error e =>
      rw [hf] at hfok
      exact absurd hfok (by simp [isOkE])
    | ok tup =>
      obtain ⟨js, bt, d0, d, ts, pu, cb⟩ := tup
      simp only [fetch_callback_url]
      rw [gen_commands, hf]
      dsimp only
      rw [check_base]
      cases hm : reMatchCallback ("-r " ++ cb) with
      | true => simp [rest_not_gen_error]
      | false => simp [is_gen_commands_error]
  · intro h
    cases hg : gen_commands env host pid u idd ap px ch with
    | error e => simp [isOkE]
    | ok t =>
      rw [hg] at h
      simp [is_gen_commands_error] at h

/-- Witness for C2 at a concrete host whose topology resolves. -/
theorem c2_callback_validation_iff_witness :
    isOkE (fetch_gse_servers env1 hostA ap1 [] none) = true
    ∧ is_gen_commands_error (gen_commands env1 hostA "p1" false idd1 ap1 [] none) =
        !(reMatchCallback
          ("-r " ++ fetch_callback_url (fetch_gse_servers env1 hostA ap1 [] none))) :=
  ⟨rfl, (c2_callback_validation_iff env1 hostA "p1" false idd1 ap1 [] none rfl).1⟩

/-- Branch behaviour of win_commands in gen_commands_rest: the Windows
direct branch emits exactly remove, download, run in that order; every
non-Windows host gets an empty win_commands list. -/
theorem rest_win_commands (env : Env) (host : Host) (u : Bool)
    (idd : IdentityData) (ap : AccessPoint) (px : List Host)
    (js : Option Host) (pu : String) (params : List String) (un : String) :
    (host.os_type = OsType.WINDOWS → choose_script_file host ≠ SETUP_PAGENT_PY →
      plan_win_commands (gen_commands_rest env host u idd ap px js pu params un) =
        [ "del /q /s /f "
            ++ plan_dest_dir (gen_commands_rest env host u idd ap px js pu params un)
            ++ plan_script_file_name (gen_commands_rest env host u idd ap px js pu params un)
            ++ " "
            ++ plan_dest_dir (gen_commands_rest env host u idd ap px js pu params un)
            ++ GSECTL_BAT,
          plan_dest_dir (gen_commands_rest env host u idd ap px js pu params un)
            ++ "curl.exe " ++ ap.package_inner_url ++ "/"
            ++ plan_script_file_name (gen_commands_rest env host u idd ap px js pu params un)
            ++ " -o "
            ++ plan_dest_dir (gen_commands_rest env host u idd ap px js pu params un)
            ++ plan_script_file_name (gen_commands_rest env host u idd ap px js pu params un)
            ++ " -sSf",
          plan_run_command (gen_commands_rest env host u idd ap px js pu params un) ])
    ∧ (host.os_type ≠ OsType.WINDOWS →
      plan_win_commands (gen_commands_rest env host u idd ap px js pu params un) = []) := by
  constructor
  · intro hw hs
    unfold gen_commands_rest
    rw [if_neg hs]
    simp [hw, plan_win_commands, plan_dest_dir, plan_script_file_name,
      plan_run_command, assemble_tools]
  · intro hw
    unfold gen_commands_rest
    by_cases hs : choose_script_file host = SETUP_PAGENT_PY
    · rw [if_pos hs]
      cases js with
      | none => rfl
      | some j =>
        dsimp only
        split
        · rfl
        · simp [plan_win_commands, assemble_tools]
    · rw [if_neg hs]
      simp [plan_win_commands, assemble_tools, hw]

/-- C9: for every Windows host taking the direct branch (the OS-specific
script, not the relay script), the successful plan carries exactly three
win_commands in the fixed order remove, download, run; for every
non-Windows host win_commands is empty. -/
theorem c9_windows_commands (env : Env) (host : Host) (pid : String)
    (u : Bool) (idd : IdentityData) (ap : AccessPoint) (px : List Host)
    (ch : Option InstallChannel)
    (hok : isOkE (gen_commands env host pid u idd ap px ch) = true) :
    (host.os_type = OsType.WINDOWS → choose_script_file host ≠ SETUP_PAGENT_PY →
      plan_win_commands (gen_commands env host pid u idd ap px ch) =
        [ "del /q /s /f "
            ++ plan_dest_dir (gen_commands env host pid u idd ap px ch)
            ++ plan_script_file_name (gen_commands env host pid u idd ap px ch)
            ++ " "
            ++ plan_dest_dir (gen_commands env host pid u idd ap px ch)
            ++ GSECTL_BAT,
          plan_dest_dir (gen_commands env host pid u idd ap px ch)
            ++ "curl.exe " ++ ap.package_inner_url ++ "/"
            ++ plan_script_file_name (gen_commands env host pid u idd ap px ch)
            ++ " -o "
            ++ plan_dest_dir (gen_commands env host pid u idd ap px ch)
            ++ plan_script_file_name (gen_commands env host pid u idd ap px ch)
            ++ " -sSf",
          plan_run_command (gen_commands env host pid u idd ap px ch) ])
    ∧ (host.os_type ≠ OsType.WINDOWS →
      plan_win_commands (gen_commands env host pid u idd ap px ch) = []) := by
  obtain ⟨tup, hf, hgen⟩ := gen_ok_decomp env host pid u idd ap px ch hok
  rw [hgen]
  exact rest_win_commands env host u idd ap px tup.1 _ _ _

/-- Witness for C9 at a concrete Windows AGENT host. -/
theorem c9_windows_commands_witness :
    isOkE (gen_commands env1 hostW "p1" false idd1 ap1 [] none) = true
    ∧ hostW.os_type = OsType.WINDOWS
    ∧ choose_script_file hostW ≠ SETUP_PAGENT_PY
    ∧ plan_win_commands (gen_commands env1 hostW "p1" false idd1 ap1 [] none) =
        [ "del /q /s /f "
            ++ plan_dest_dir (gen_commands env1 hostW "p1" false idd1 ap1 [] none)
            ++ plan_script_file_name (gen_commands env1 hostW "p1" false idd1 ap1 [] none)
            ++ " "
            ++ plan_dest_dir (gen_commands env1 hostW "p1" false idd1 ap1 [] none)
            ++ GSECTL_BAT,
          plan_dest_dir (gen_commands env1 hostW "p1" false idd1 ap1 [] none)
            ++ "curl.exe " ++ ap1.package_inner_url ++ "/"
            ++ plan_script_file_name (gen_commands env1 hostW "p1" false idd1 ap1 [] none)
            ++ " -o "
            ++ plan_dest_dir (gen_commands env1 hostW "p1" false idd1 ap1 [] none)
            ++ plan_script_file_name (gen_commands env1 hostW "p1" false idd1 ap1 [] none)
            ++ " -sSf",
          plan_run_command (gen_commands env1 hostW "p1" false idd1 ap1 [] none) ] :=
  ⟨rfl, rfl, by decide,
    (c9_windows_commands env1 hostW "p1" false idd1 ap1 [] none rfl).1 rfl (by decide)⟩

/-- C5: in every branch the emitted parameter list is value-correct despite
the duplicated data_servers slot of fetch_gse_servers: the slot the body
reads (the later duplicate target) equals the resolved data-server string
of the spec, the task slot equals the resolved task-server string, the two
data slots coincide, and in the base parameter list the -a parameter
(index 13) carries exactly the resolved data-server string while the -k
parameter (index 14) carries exactly the resolved task-server string. -/
theorem c5_data_task_params_value_correct (env : Env) (host : Host)
    (ap : AccessPoint) (px : List Host) (ch : Option InstallChannel)
    (pid tok : String)
    (hfok : isOkE (fetch_gse_servers env host ap px ch) = true) :
    fetch_data_used (fetch_gse_servers env host ap px ch) =
      spec_resolved_data_servers host ap px ch
    ∧ fetch_task (fetch_gse_servers env host ap px ch) =
      spec_resolved_task_servers host ap px ch
    ∧ fetch_data_first (fetch_gse_servers env host ap px ch) =
      fetch_data_used (fetch_gse_servers env host ap px ch)
    ∧ List.get? (base_run_params pid
        (fetch_callback_url (fetch_gse_servers env host ap px ch))
        (fetch_package_url (fetch_gse_servers env host ap px ch)) tok
        ap.port_config
        (fetch_bt (fetch_gse_servers env host ap px ch))
        (fetch_data_used (fetch_gse_servers env host ap px ch))
        (fetch_task (fetch_gse_servers env host ap px ch))) 13 =
      some ("-a \"" ++ spec_resolved_data_servers host ap px ch ++ "\"")
    ∧ List.get? (base_run_params pid
        (fetch_callback_url (fetch_gse_servers env host ap px ch))
        (fetch_package_url (fetch_gse_servers env host ap px ch)) tok
        ap.port_config
        (fetch_bt (fetch_gse_servers env host ap px ch))
        (fetch_data_used (fetch_gse_servers env host ap px ch))
        (fetch_task (fetch_gse_servers env host ap px ch))) 14 =
      some ("-k \"" ++ spec_resolved_task_servers host ap px ch ++ "\"") := by
  have key : fetch_data_used (fetch_gse_servers env host ap px ch) =
      spec_resolved_data_servers host ap px ch
      ∧ fetch_task (fetch_gse_servers env host ap px ch) =
        spec_resolved_task_servers host ap px ch
      ∧ fetch_data_first (fetch_gse_servers env host ap px ch) =
        fetch_data_used (fetch_gse_servers env host ap px ch) := by
    by_cases hch : host.install_channel_id.isSome
    · cases ch with
      | none =>
        unfold fetch_gse_servers at hfok
        rw [if_pos hch] at hfok
        exact absurd hfok (by simp [isOkE])
      | some c =>
        refine ⟨?_, ?_, ?_⟩ <;>
          simp [fetch_gse_servers, hch, spec_resolved_data_servers,
            spec_resolved_task_servers, fetch_data_used, fetch_task,
            fetch_data_first]
    · cases hn : host.node_type with
      | AGENT =>
        refine ⟨?_, ?_, ?_⟩ <;>
          simp [fetch_gse_servers, hch, hn, spec_resolved_data_servers,
            spec_resolved_task_servers, fetch_data_used, fetch_task,
            fetch_data_first]
      | PROXY =>
        refine ⟨?_, ?_, ?_⟩ <;>
          simp [fetch_gse_servers, hch, hn, spec_resolved_data_servers,
            spec_resolved_task_servers, fetch_data_used, fetch_task,
            fetch_data_first]
      | PAGENT =>
        cases hcp : env.choose_alive_proxy px with
        | none =>
          unfold fetch_gse_servers at hfok
          rw [hn, hcp] at hfok
          have hchf : (host.install_channel_id.isSome = true) = False := by
            simp [hch]
          simp [hchf, isOkE] at hfok
        | some j =>
          refine ⟨?_, ?_, ?_⟩ <;>
            simp [fetch_gse_servers, hch, hn, hcp, spec_resolved_data_servers,
              spec_resolved_task_servers, fetch_data_used, fetch_task,
              fetch_data_first, pySetList]
  refine ⟨key.1, key.2.1, key.2.2, ?_, ?_⟩
  · rw [← key.1]
    simp [base_run_params]
  · rw [← key.2.1]
    simp [base_run_params]

/-- Witness for C5 at a concrete AGENT host. -/
theorem c5_data_task_params_value_correct_witness :
    isOkE (fetch_gse_servers env1 hostA ap1 [] none) = true
    ∧ fetch_data_used (fetch_gse_servers env1 hostA ap1 [] none) =
        spec_resolved_data_servers hostA ap1 [] none
    ∧ List.get? (base_run_params "p1"
        (fetch_callback_url (fetch_gse_servers env1 hostA ap1 [] none))
        (fetch_package_url (fetch_gse_servers env1 hostA ap1 [] none)) "tok"
        ap1.port_config
        (fetch_bt (fetch_gse_servers env1 hostA ap1 [] none))
        (fetch_data_used (fetch_gse_servers env1 hostA ap1 [] none))
        (fetch_task (fetch_gse_servers env1 hostA ap1 [] none))) 13 =
      some ("-a \"" ++ spec_resolved_data_servers hostA ap1 [] none ++ "\"") :=
  ⟨rfl,
    (c5_data_task_params_value_correct env1 hostA ap1 [] none "p1" "tok" rfl).1,
    (c5_data_task_params_value_correct env1 hostA ap1 [] none "p1" "tok"
      rfl).2.2.2.1⟩

/-- A successful lookup result is a member of the association list. -/
theorem lookup_mem {α β : Type} [BEq α] [LawfulBEq α] (k : α) (v : β) :
    ∀ l : List (α × β), List.lookup k l = some v → (k, v) ∈ l := by
  intro l
  induction l with
  | nil => intro h; simp [List.lookup] at h
  | cons p t ih =>
    intro h
    cases p with
    | mk a b =>
      cases hbeq : (k == a) with
      | true =>
        simp only [List.lookup, hbeq] at h
        have hk : k = a := eq_of_beq hbeq
        have hv : b = v := Option.some.inj h
        subst hk
        rw [← hv]
        exact List.mem_cons_self _ _
      | false =>
        simp only [List.lookup, hbeq] at h
        exact List.mem_cons_of_mem _ (ih h)

/-- Looking up past a list that does not contain the key. -/
theorem lookup_append_none {α β : Type} [BEq α] (k : α) (l₂ : List (α × β)) :
    ∀ l₁ : List (α × β), List.lookup k l₁ = none →
      List.lookup k (l₁ ++ l₂) = List.lookup k l₂ := by
  intro l₁
  induction l₁ with
  | nil => intro _; rfl
  | cons p t ih =>
    intro h
    cases p with
    | mk a b =>
      cases hbeq : (k == a) with
      | true =>
        simp only [List.lookup, hbeq] at h
        exact absurd h (by simp)
      | false =>
        simp only [List.lookup, hbeq] at h
        simp only [List.cons_append, List.lookup, hbeq]
        exact ih h

/-- The lazily populated cache returns the modelled lookup value when its
entries agree with the modelled lookup. -/
theorem cache_get {α β : Type} [BEq α] [LawfulBEq α] (f : α → β) (dflt : β)
    (l : List (α × β)) (inv : ∀ p ∈ l, p.2 = f p.1) (k : α) :
    (List.lookup k (if (List.lookup k l).isSome then l
      else l ++ [(k, f k)])).getD dflt = f k := by
  cases h : List.lookup k l with
  | some v =>
    rw [if_pos (by simp [h])]
    rw [h]
    have hv := inv (k, v) (lookup_mem k v l h)
    simpa using hv
  | none =>
    rw [if_neg (by simp [h])]
    rw [lookup_append_none k _ l h]
    simp [List.lookup]

/-- Populating the cache preserves agreement with the modelled lookup. -/
theorem cache_inv_preserved {α β : Type} [BEq α] (f : α → β)
    (l : List (α × β)) (inv : ∀ p ∈ l, p.2 = f p.1) (k : α) :
    ∀ p ∈ (if (List.lookup k l).isSome then l else l ++ [(k, f k)]),
      p.2 = f p.1 := by
  intro p hp
  by_cases h : (List.lookup k l).isSome
  · rw [if_pos h] at hp
    exact inv p hp
  · rw [if_neg h] at hp
    rcases List.mem_append.mp hp with h1 | h2
    · exact inv p h1
    · simp at h2
      rw [h2]

/-- Lookup after a dict insert: the inserted key is present, other keys are
unaffected. -/
theorem dictInsert_lookup_isSome {β : Type} (m : List (Nat × β))
    (k k' : Nat) (v : β) :
    (List.lookup k' (dictInsert m k v)).isSome =
      ((k' == k) || (List.lookup k' m).isSome) := by
  simp only [dictInsert, List.lookup]
  cases h : (k' == k) with
  | true => simp
  | false => simp

/-- The batch loop succeeds exactly when every remaining host generates,
provided the cache entries agree with the modelled lookups. -/
theorem batch_go_isOk_iff (env : Env) (pid : String) (u : Bool) :
    ∀ (hosts : List Host) (cc : List (Nat × List Host))
      (chc : List (Option Nat × Option InstallChannel))
      (acc : List (Nat × InstallationTools)),
      (∀ p ∈ cc, p.2 = env.proxies_of_cloud p.1) →
      (∀ p ∈ chc, p.2 = env.install_channel_of p.1) →
      (isOkE (batch_gen_commands_go env pid u hosts cc chc acc) = true ↔
        ∀ h ∈ hosts, isOkE (batch_host_plan env pid u h) = true) := by
  intro hosts
  induction hosts with
  | nil =>
    intro cc chc acc _ _
    simp [batch_gen_commands_go, isOkE]
  | cons host rest ih =>
    intro cc chc acc invc invch
    have hprox := cache_get env.proxies_of_cloud [] cc invc host.bk_cloud_id
    have hchan := cache_get env.install_channel_of none chc invch
      host.install_channel_id
    rw [batch_gen_commands_go]
    rw [hprox, hchan]
    have hplan : gen_commands env host pid u
        ((env.bulk_identity_of host.bk_host_id).getD host.identity)
        (env.ap_id_obj_map host.ap_id)
        (env.proxies_of_cloud host.bk_cloud_id)
        (env.install_channel_of host.install_channel_id) =
      batch_host_plan env pid u host := rfl
    rw [hplan]
    cases hg : batch_host_plan env pid u host with
    | error e =>
      simp [isOkE, List.forall_mem_cons, hg]
    | ok tools =>
      rw [ih _ _ _ (cache_inv_preserved env.proxies_of_cloud cc invc
          host.bk_cloud_id)
        (cache_inv_preserved env.install_channel_of chc invch
          host.install_channel_id)]
      simp [List.forall_mem_cons, hg, isOkE]

/-- Keys already in the accumulator survive the batch loop. -/
theorem batch_go_acc_keys (env : Env) (pid : String) (u : Bool) :
    ∀ (hosts : List Host) (cc : List (Nat × List Host))
      (chc : List (Option Nat × Option InstallChannel))
      (acc m : List (Nat × InstallationTools)) (k : Nat),
      batch_gen_commands_go env pid u hosts cc chc acc = Except.ok m →
      (List.lookup k acc).isSome = true → (List.lookup k m).isSome = true := by
  intro hosts
  induction hosts with
  | nil =>
    intro cc chc acc m k h hk
    simp [batch_gen_commands_go] at h
    rw [← h]
    exact hk
  | cons host rest ih =>
    intro cc chc acc m k h hk
    rw [batch_gen_commands_go] at h
    split at h
    · exact absurd h (by simp)
    · refine ih _ _ _ m k h ?_
      rw [dictInsert_lookup_isSome]
      simp [hk]

/-- On success, every processed host appears in the returned map. -/
theorem batch_go_ok_lookup (env : Env) (pid : String) (u : Bool) :
    ∀ (hosts : List Host) (cc : List (Nat × List Host))
      (chc : List (Option Nat × Option InstallChannel))
      (acc m : List (Nat × InstallationTools)),
      batch_gen_commands_go env pid u hosts cc chc acc = Except.ok m →
      ∀ h ∈ hosts, (List.lookup h.bk_host_id m).isSome = true := by
  intro hosts
  induction hosts with
  | nil =>
    intro cc chc acc m _ x hx
    simp at hx
  | cons host rest ih =>
    intro cc chc acc m hm x hx
    rw [batch_gen_commands_go] at hm
    split at hm
    · exact absurd hm (by simp)
    · rcases List.mem_cons.mp hx with h1 | h2
      · subst h1
        refine batch_go_acc_keys env pid u rest _ _ _ m x.bk_host_id hm ?_
        rw [dictInsert_lookup_isSome]
        simp
      · exact ih _ _ _ m hm x h2

/-- C3 counterexample: with two hosts of which the first (a PAGENT host
with no reachable proxy) fails fatally, batch_gen_commands propagates the
exception and returns no map at all, although the second host on its own
generates successfully; the claim that every other host is still attempted
and appears in the returned map is therefore false at this input. -/
theorem c3_batch_abort_counterexample :
    batch_gen_commands env2 [hostPBad, hostA] "p1" false =
      Except.error GenError.AliveProxyNotExists
    ∧ isOkE (batch_host_plan env2 "p1" false hostA) = true :=
  ⟨rfl, rfl⟩

/-- C3 (amended): a per-host fatal failure aborts the whole batch call:
batch_gen_commands succeeds exactly when every host in the list generates
successfully with the batch-resolved inputs, and when it succeeds every
host appears in the returned host-id-to-plan map; when any host fails, the
error propagates and no map (hence no other host plan) is returned. -/
theorem c3_batch_first_failure_aborts (env : Env) (hosts : List Host)
    (pid : String) (u : Bool) :
    (isOkE (batch_gen_commands env hosts pid u) = true ↔
      ∀ h ∈ hosts, isOkE (batch_host_plan env pid u h) = true)
    ∧ (∀ m, batch_gen_commands env hosts pid u = Except.ok m →
        ∀ h ∈ hosts, (List.lookup h.bk_host_id m).isSome = true) := by
  constructor
  · exact batch_go_isOk_iff env pid u hosts [] [] [] (by simp) (by simp)
  · intro m hm h hh
    exact batch_go_ok_lookup env pid u hosts [] [] [] m hm h hh

/-- Witness for the amended C3 at a concrete one-host batch. -/
theorem c3_batch_first_failure_aborts_witness :
    isOkE (batch_gen_commands env1 [hostA] "p1" false) = true
    ∧ (batch_gen_commands env1 [hostA] "p1" false).map
        (fun m => (List.lookup hostA.bk_host_id m).isSome) = Except.ok true :=
  ⟨(c3_batch_first_failure_aborts env1 [hostA] "p1" false).1.mpr
      (by
        intro h hh
        rw [List.mem_singleton.mp hh]
        rfl),
    rfl⟩
